import Mathlib

/-
  Verification development for the StarterKIT authentication/authorization core.

  Shallow embedding of:
  - src/api/auth/authService.ts   (AuthService: register/login/refresh/logout/currentUser)
  - src/api/auth/authRepository.ts (AuthRepository over prisma.user)
  - src/api/resource/resourceService.ts (ResourceService ownership guards)
  - src/common/utils/envConfig.ts (envSchema, JWT fields)
  - src/common/lib/socket.ts      (access-token verification: jwt.verify(token, env.JWT_SECRET))
  - src/api/user/userModel.ts     (User / UserWithSecrets shapes)

  Modelling conventions:
  - bcrypt carries bcryptjs's 72-byte input truncation: a digest is determined
    by its random salt and the first 72 bytes of the input, and verification
    succeeds exactly on inputs agreeing on that 72-byte window (idealized: no
    collisions between distinct windows). For the compact JWTs hashed here the
    window covers the fixed header and the userId/email/role prefix of the
    claims; the token id, the timestamps and the signature lie past byte 72.
    Salts come from a counter in the Db state (fresh randomness per call).
  - jsonwebtoken is idealized: a signed token is a value carrying its claims,
    its unique jwtid (randomUUID, modelled by a counter), its signing secret and
    its expiresIn setting; verify succeeds exactly when the verifying secret
    equals the signing secret (unforgeability). Real jwt.verify also rejects
    expired tokens; passage of time is not modelled (no claim depends on it).
  - The prisma store is a list of user rows; prisma.user.update with a `where`
    on the primary key updates the (unique) matching row and throws (P2025)
    when no row matches, modelled by an Option result.
  - Async methods are modelled as pure functions threading the Db state.
-/

namespace StarterKit

/-- User roles, from the `role` enum in userModel.ts / schema. -/
inductive Role where
  | ADMIN
  | USER
  | MODERATOR
deriving DecidableEq, Repr

/-- JWT claims payload built in AuthService.generateTokens: userId, email, role. -/
structure TokenPayload where
  userId : Nat
  email : String
  role : Role
deriving DecidableEq, Repr

/-- Idealized signed JWT (jsonwebtoken jwt.sign output): claims, unique token id,
signing secret, expiresIn option. -/
structure Jwt where
  payload : TokenPayload
  jwtid : Nat
  secret : String
  expiresIn : String
deriving DecidableEq, Repr

/-- jwt.sign: embeds payload, jwtid and the signing secret. -/
def jwtSign (payload : TokenPayload) (secret : String) (expiresIn : String) (jwtid : Nat) : Jwt :=
  { payload := payload, jwtid := jwtid, secret := secret, expiresIn := expiresIn }

/-- jwt.verify: returns the claims iff the verifying secret matches the signing
secret (idealized tamper-evidence); otherwise the library throws, modelled as none. -/
def jwtVerify (t : Jwt) (secret : String) : Option TokenPayload :=
  if t.secret = secret then some t.payload else none

/-- JSON rendering of a role value inside the signed claims. -/
def roleName : Role → String
  | Role.ADMIN => "ADMIN"
  | Role.USER => "USER"
  | Role.MODERATOR => "MODERATOR"

/-- First n characters of a string (characters stand for UTF-8 bytes; exact
for the ASCII data involved here). -/
def strTake (s : String) (n : Nat) : String := ⟨s.data.take n⟩

/-- Prefix of the claims JSON jsonwebtoken signs: JSON.stringify keeps the
sign() payload in insertion order (userId, email, role) and the registered
iat/exp/jti claims are appended after it, so the serialized claims object
starts with this segment — at least 36 bytes for every value of the fields. -/
def claimsJsonPrefix (p : TokenPayload) : String :=
  "\x7b\"userId\":" ++ toString p.userId ++ ",\"email\":\"" ++ p.email ++
    "\",\"role\":\"" ++ roleName p.role ++ "\""

/-- Base64url of the fixed JOSE header of every HS256 token jsonwebtoken
signs here; with the following dot it occupies the first 37 bytes of the
compact serialization. -/
def jwtHeaderB64 : String := "eyJhbGciOiJIUzI1NiIsInR5cCI6IkpXVCJ9"

/-- What bcryptjs actually keys on for an input of type α: bcrypt silently
ignores every byte of its input beyond the first 72, so both the digest and
compareSync depend only on this key. -/
class BcryptInput (α : Type) where
  key : α → String

/-- A password is hashed as given: its key is its first 72 bytes. -/
instance instBcryptInputString : BcryptInput String := ⟨fun s => strTake s 72⟩

/-- A refresh token is hashed in its compact serialization
base64url(header).base64url(claims).signature. The header and the dot occupy
the first 37 bytes, so only the first 35 base64url characters of the claims
segment fit inside bcryptjs's 72-byte window, and those are determined by the
first 26 bytes of the claims JSON — inside the userId/email/role prefix (at
least 36 bytes for every field value), before the iat/exp/jti claims and the
signature. The key is modelled as the header, the dot and those 26 claim
bytes; two tokens for the same user agree on all of it. -/
instance instBcryptInputJwt : BcryptInput Jwt :=
  ⟨fun t => jwtHeaderB64 ++ "." ++ strTake (claimsJsonPrefix t.payload) 26⟩

/-- Idealized bcrypt digest: the random salt together with the 72-byte input
key it was computed from (the stored string column determines both). -/
structure BcryptHash where
  salt : Nat
  key : String
deriving DecidableEq, Repr

/-- bcrypt.hashSync with a fresh genSaltSync(12) salt: digests only the first
72 bytes of its input. -/
def bcryptHash [BcryptInput α] (x : α) (salt : Nat) : BcryptHash :=
  { salt := salt, key := BcryptInput.key x }

/-- bcrypt.compareSync: true exactly when the candidate agrees with the hashed
input on the 72-byte window bcrypt keys on (idealized: no collisions between
distinct windows). -/
def bcryptCompare [BcryptInput α] (x : α) (h : BcryptHash) : Bool :=
  decide (BcryptInput.key x = h.key)

/-- Public user projection (UserSchema in userModel.ts): no secret fields. -/
structure User where
  id : Nat
  email : String
  role : Role
  createdAt : Nat
  updatedAt : Nat
deriving DecidableEq, Repr

/-- Full persisted user row (UserWithSecretsSchema): adds passwordHash and the
nullable refreshTokenHash. -/
structure UserWithSecrets where
  id : Nat
  email : String
  role : Role
  createdAt : Nat
  updatedAt : Nat
  passwordHash : BcryptHash
  refreshTokenHash : Option BcryptHash
deriving DecidableEq, Repr

/-- Store state: the prisma user table plus the deterministic sources of
freshness (autoincrement id, clock, bcrypt salts, jwt ids). -/
structure Db where
  users : List UserWithSecrets
  nextId : Nat
  now : Nat
  nextSalt : Nat
  nextJti : Nat
deriving DecidableEq, Repr

/-- HTTP status codes used by these services (http-status-codes). -/
def StatusCodes.OK : Nat := 200

/-- Status 201 Created. -/
def StatusCodes.CREATED : Nat := 201

/-- Status 400 Bad Request. -/
def StatusCodes.BAD_REQUEST : Nat := 400

/-- Status 401 Unauthorized. -/
def StatusCodes.UNAUTHORIZED : Nat := 401

/-- Status 403 Forbidden. -/
def StatusCodes.FORBIDDEN : Nat := 403

/-- Status 404 Not Found. -/
def StatusCodes.NOT_FOUND : Nat := 404

/-- Status 500 Internal Server Error. -/
def StatusCodes.INTERNAL_SERVER_ERROR : Nat := 500

/-- Modelled from the spec: the ServiceResponse envelope
(src/common/models/serviceResponse.ts is not under src/; the spec describes a
single success/failure envelope with a stable status classification, and every
call site in authService/resourceService passes message, data and status code
explicitly). -/
structure ServiceResponse (α : Type) where
  success : Bool
  message : String
  data : Option α
  statusCode : Nat
deriving DecidableEq, Repr

/-- ServiceResponse.success static: success envelope with the given payload. -/
def ServiceResponse.mkSuccess (message : String) (data : Option α) (statusCode : Nat) :
    ServiceResponse α :=
  { success := true, message := message, data := data, statusCode := statusCode }

/-- ServiceResponse.failure static: failure envelope, data null. -/
def ServiceResponse.mkFailure (message : String) (statusCode : Nat) : ServiceResponse α :=
  { success := false, message := message, data := none, statusCode := statusCode }

/-- The JWT-related slice of the validated environment (envConfig.ts). -/
structure Env where
  JWT_SECRET : String
  JWT_REFRESH_SECRET : String
  JWT_ACCESS_EXPIRY : String
  JWT_REFRESH_EXPIRY : String
deriving DecidableEq, Repr

/-- The JWT portion of envSchema (envConfig.ts lines 21-27): JWT_SECRET and
JWT_REFRESH_SECRET are required strings of length at least 32; the expiries are
strings defaulting to "15m" and "7d". zod validates each field independently;
the schema has no cross-field refinement comparing the two secrets. -/
def parseEnvAuth (jwtSecret jwtRefreshSecret accessExpiry refreshExpiry : Option String) :
    Option Env :=
  match jwtSecret, jwtRefreshSecret with
  | some s, some t =>
    if 32 ≤ s.length then
      if 32 ≤ t.length then
        some { JWT_SECRET := s, JWT_REFRESH_SECRET := t,
               JWT_ACCESS_EXPIRY := accessExpiry.getD "15m",
               JWT_REFRESH_EXPIRY := refreshExpiry.getD "7d" }
      else none
    else none
  | _, _ => none

/-- prisma.user.findUnique by email (AuthRepository.findByEmailAsync); the email
column is unique, modelled as first match. -/
def findUserByEmail : List UserWithSecrets → String → Option UserWithSecrets
  | [], _ => none
  | u :: rest, email => if u.email = email then some u else findUserByEmail rest email

/-- prisma.user.findUnique by id (AuthRepository.findByIdAsync); the id column
is the unique primary key, modelled as first match. -/
def findUser : List UserWithSecrets → Nat → Option UserWithSecrets
  | [], _ => none
  | u :: rest, uid => if u.id = uid then some u else findUser rest uid

/-- AuthRepository.findByEmailAsync. -/
def findByEmailAsync (db : Db) (email : String) : Option UserWithSecrets :=
  findUserByEmail db.users email

/-- AuthRepository.findByIdAsync. -/
def findByIdAsync (db : Db) (userId : Nat) : Option UserWithSecrets :=
  findUser db.users userId

/-- AuthRepository.createUserAsync: prisma.user.create assigns the next
autoincrement id and the current timestamps. -/
def createUserAsync (db : Db) (email : String) (passwordHash : BcryptHash)
    (role : Role) (refreshTokenHash : Option BcryptHash) : UserWithSecrets × Db :=
  let u : UserWithSecrets :=
    { id := db.nextId, email := email, role := role, createdAt := db.now,
      updatedAt := db.now, passwordHash := passwordHash, refreshTokenHash := refreshTokenHash }
  (u, { db with users := db.users ++ [u], nextId := db.nextId + 1 })

/-- prisma.user.update where id: sets refreshTokenHash (and the auto-managed
updatedAt) on the unique matching row; none models the P2025 throw when no row
matches. -/
def setRefreshHashInList (uid : Nat) (h : Option BcryptHash) (now : Nat) :
    List UserWithSecrets → Option (List UserWithSecrets)
  | [] => none
  | u :: rest =>
    if u.id = uid then
      some ({ u with refreshTokenHash := h, updatedAt := now } :: rest)
    else
      (setRefreshHashInList uid h now rest).map (u :: ·)

/-- AuthRepository.updateRefreshTokenHashAsync (non-null hash). -/
def updateRefreshTokenHashAsync (db : Db) (userId : Nat) (h : BcryptHash) : Option Db :=
  (setRefreshHashInList userId (some h) db.now db.users).map
    fun us => { db with users := us }

/-- AuthRepository.clearRefreshTokenHashAsync (hash set to null). -/
def clearRefreshTokenHashAsync (db : Db) (userId : Nat) : Option Db :=
  (setRefreshHashInList userId none db.now db.users).map
    fun us => { db with users := us }

/-- AuthService.sanitizeUser: rest-spread destructuring that drops passwordHash
and refreshTokenHash and keeps every other field. -/
def sanitizeUser (u : UserWithSecrets) : User :=
  { id := u.id, email := u.email, role := u.role,
    createdAt := u.createdAt, updatedAt := u.updatedAt }

/-- AuthService.hashPassword: bcrypt.hashSync with a fresh genSaltSync(12) salt
(fresh randomness drawn from the state); reused for refresh-token opacity. -/
def hashPassword [BcryptInput α] (x : α) (db : Db) : BcryptHash × Db :=
  (bcryptHash x db.nextSalt, { db with nextSalt := db.nextSalt + 1 })

/-- AuthService.verifyPassword: bcrypt.compareSync. -/
def verifyPassword [BcryptInput α] (x : α) (h : BcryptHash) : Bool :=
  bcryptCompare x h

/-- AuthService.generateTokens: signs an access token with JWT_SECRET and a
refresh token with JWT_REFRESH_SECRET, each with its own fresh jwtid. -/
def generateTokens (cfg : Env) (db : Db) (userId : Nat) (email : String) (role : Role) :
    (Jwt × Jwt) × Db :=
  let payload : TokenPayload := { userId := userId, email := email, role := role }
  let jwtId := db.nextJti
  let accessToken := jwtSign payload cfg.JWT_SECRET cfg.JWT_ACCESS_EXPIRY jwtId
  let refreshToken := jwtSign payload cfg.JWT_REFRESH_SECRET cfg.JWT_REFRESH_EXPIRY (db.nextJti + 1)
  ((accessToken, refreshToken), { db with nextJti := db.nextJti + 2 })

/-- AuthService.verifyRefreshToken: jwt.verify against JWT_REFRESH_SECRET,
returning null on any verification failure. -/
def verifyRefreshToken (cfg : Env) (t : Jwt) : Option TokenPayload :=
  jwtVerify t cfg.JWT_REFRESH_SECRET

/-- Socket middleware access-token verification (socket.ts):
jwt.verify(token, env.JWT_SECRET). -/
def socketVerifyAccessToken (cfg : Env) (t : Jwt) : Option TokenPayload :=
  jwtVerify t cfg.JWT_SECRET

/-- AuthService.registerAsync: reject duplicate email, hash the password,
create the user with role USER and null refreshTokenHash, return the sanitized
projection. The name argument is accepted but never used. -/
def registerAsync (db : Db) (email password nm : String) : ServiceResponse User × Db :=
  match findByEmailAsync db email with
  | some _ => (.mkFailure "Email already in use" StatusCodes.BAD_REQUEST, db)
  | none =>
    let (passwordHash, db1) := hashPassword password db
    let (newUser, db2) := createUserAsync db1 email passwordHash Role.USER none
    (.mkSuccess "User registered successfully" (some (sanitizeUser newUser)) StatusCodes.CREATED,
      db2)

/-- Success payload of loginAsync: user, accessToken, refreshToken. -/
structure LoginData where
  user : User
  accessToken : Jwt
  refreshToken : Jwt
deriving DecidableEq, Repr

/-- Success payload of refreshTokenAsync: accessToken, refreshToken. -/
structure RefreshData where
  accessToken : Jwt
  refreshToken : Jwt
deriving DecidableEq, Repr

/-- AuthService.loginAsync: identical generic 401 for unknown email and for a
failed password check; on success, generate a fresh token pair, store the
bcrypt hash of the refresh token (the repository update throwing is caught and
surfaced as a 500), return sanitized user plus the pair. -/
def loginAsync (cfg : Env) (db : Db) (email password : String) :
    ServiceResponse LoginData × Db :=
  match findByEmailAsync db email with
  | none => (.mkFailure "Invalid email or password" StatusCodes.UNAUTHORIZED, db)
  | some user =>
    if verifyPassword password user.passwordHash then
      let ((accessToken, refreshToken), db1) := generateTokens cfg db user.id user.email user.role
      let (refreshTokenHash, db2) := hashPassword refreshToken db1
      match updateRefreshTokenHashAsync db2 user.id refreshTokenHash with
      | none =>
        (.mkFailure "An error occurred while logging in." StatusCodes.INTERNAL_SERVER_ERROR, db2)
      | some db3 =>
        (.mkSuccess "Login successful"
          (some { user := sanitizeUser user, accessToken := accessToken,
                  refreshToken := refreshToken })
          StatusCodes.OK, db3)
    else
      (.mkFailure "Invalid email or password" StatusCodes.UNAUTHORIZED, db)

/-- AuthService.refreshTokenAsync: 401 when the token fails refresh-secret
verification, when the claimed user is absent or has a null stored hash, or
when the token does not verify against the stored hash; otherwise rotate:
issue a new pair, overwrite the stored hash with the hash of the new refresh
token, return the new pair. -/
def refreshTokenAsync (cfg : Env) (db : Db) (refreshToken : Jwt) :
    ServiceResponse RefreshData × Db :=
  match verifyRefreshToken cfg refreshToken with
  | none => (.mkFailure "Invalid or expired refresh token" StatusCodes.UNAUTHORIZED, db)
  | some payload =>
    match findByIdAsync db payload.userId with
    | none => (.mkFailure "Invalid or expired refresh token" StatusCodes.UNAUTHORIZED, db)
    | some user =>
      match user.refreshTokenHash with
      | none => (.mkFailure "Invalid or expired refresh token" StatusCodes.UNAUTHORIZED, db)
      | some storedHash =>
        if verifyPassword refreshToken storedHash then
          let ((accessToken, newRefreshToken), db1) :=
            generateTokens cfg db user.id user.email user.role
          let (newRefreshTokenHash, db2) := hashPassword newRefreshToken db1
          match updateRefreshTokenHashAsync db2 user.id newRefreshTokenHash with
          | none =>
            (.mkFailure "An error occurred while refreshing token."
              StatusCodes.INTERNAL_SERVER_ERROR, db2)
          | some db3 =>
            (.mkSuccess "Token refreshed successfully"
              (some { accessToken := accessToken, refreshToken := newRefreshToken })
              StatusCodes.OK, db3)
        else
          (.mkFailure "Invalid or expired refresh token" StatusCodes.UNAUTHORIZED, db)

/-- AuthService.logoutAsync: clear the stored refresh hash; a repository throw
(no matching row) is caught and surfaced as a 500 failure. -/
def logoutAsync (db : Db) (userId : Nat) : ServiceResponse Unit × Db :=
  match clearRefreshTokenHashAsync db userId with
  | none => (.mkFailure "An error occurred while logging out." StatusCodes.INTERNAL_SERVER_ERROR, db)
  | some db1 => (.mkSuccess "Logout successful" none StatusCodes.OK, db1)

/-- AuthService.getCurrentUserAsync: 404 when absent, sanitized user otherwise. -/
def getCurrentUserAsync (db : Db) (userId : Nat) : ServiceResponse User × Db :=
  match findByIdAsync db userId with
  | none => (.mkFailure "User not found" StatusCodes.NOT_FOUND, db)
  | some user =>
    (.mkSuccess "User fetched successfully" (some (sanitizeUser user)) StatusCodes.OK, db)

/-- Resource statuses (resourceModel.ts). -/
inductive ResourceStatus where
  | DRAFT
  | PUBLISHED
  | ARCHIVED
deriving DecidableEq, Repr

/-- Resource row (ResourceSchema in resourceModel.ts); metadata (z.any) is kept
as an opaque nullable string. -/
structure Resource where
  id : Nat
  title : String
  description : Option String
  content : Option String
  status : ResourceStatus
  category : Option String
  tags : List String
  metadata : Option String
  createdAt : Nat
  updatedAt : Nat
  userId : Nat
deriving DecidableEq, Repr

/-- Update payload for ResourceService.update: each field optionally present. -/
structure ResourcePatch where
  title : Option String
  description : Option (Option String)
  content : Option (Option String)
  status : Option ResourceStatus
  category : Option (Option String)
  tags : Option (List String)
  metadata : Option (Option String)
deriving DecidableEq, Repr

/-- Applies the present fields of a patch to a row (drizzle update .set). -/
def applyResourcePatch (r : Resource) (p : ResourcePatch) : Resource :=
  { r with
    title := p.title.getD r.title,
    description := p.description.getD r.description,
    content := p.content.getD r.content,
    status := p.status.getD r.status,
    category := p.category.getD r.category,
    tags := p.tags.getD r.tags,
    metadata := p.metadata.getD r.metadata }

/-- ResourceRepository.findByIdAsync: select where id, limit 1; id is the
unique primary key, modelled as first match. -/
def findResource : List Resource → Nat → Option Resource
  | [], _ => none
  | r :: rest, rid => if r.id = rid then some r else findResource rest rid

/-- ResourceRepository.updateAsync: drizzle update .set(data) .where(eq id)
.returning(); returns the updated row (none when no row matches, where the
code reads undefined from the empty returning array). -/
def resourceUpdateAsync (rs : List Resource) (rid : Nat) (p : ResourcePatch) :
    Option Resource × List Resource :=
  match rs with
  | [] => (none, [])
  | r :: rest =>
    if r.id = rid then (some (applyResourcePatch r p), applyResourcePatch r p :: rest)
    else
      let (o, rest1) := resourceUpdateAsync rest rid p
      (o, r :: rest1)

/-- ResourceRepository.deleteAsync: drizzle delete where eq id. -/
def resourceDeleteAsync (rs : List Resource) (rid : Nat) : List Resource :=
  rs.filter (fun r => decide (r.id ≠ rid))

/-- The ownership/role rule of the ResourceService guards (the negation of
`role !== ADMIN && resource.userId !== requestingUserId`): ADMIN may access any
resource; anyone else only a resource whose owner equals the actor. -/
def canAccess (actorRole : Role) (actorId resourceOwnerId : Nat) : Bool :=
  decide (actorRole = Role.ADMIN) || decide (resourceOwnerId = actorId)

/-- ResourceService.findById: 404 when absent, 403 for a non-admin non-owner,
the resource otherwise. Read-only. -/
def resourceFindById (rdb : List Resource) (id requestingUserId : Nat)
    (requestingUserRole : Role) : ServiceResponse Resource :=
  match findResource rdb id with
  | none => .mkFailure "Resource not found" StatusCodes.NOT_FOUND
  | some resource =>
    if requestingUserRole ≠ Role.ADMIN ∧ resource.userId ≠ requestingUserId then
      .mkFailure "You do not have permission to access this resource" StatusCodes.FORBIDDEN
    else
      .mkSuccess "Resource found" (some resource) StatusCodes.OK

/-- ResourceService.update: same guard as findById, then the repository update. -/
def resourceUpdate (rdb : List Resource) (id : Nat) (data : ResourcePatch)
    (requestingUserId : Nat) (requestingUserRole : Role) :
    ServiceResponse Resource × List Resource :=
  match findResource rdb id with
  | none => (.mkFailure "Resource not found" StatusCodes.NOT_FOUND, rdb)
  | some existing =>
    if requestingUserRole ≠ Role.ADMIN ∧ existing.userId ≠ requestingUserId then
      (.mkFailure "You do not have permission to update this resource" StatusCodes.FORBIDDEN, rdb)
    else
      let (updated, rdb1) := resourceUpdateAsync rdb id data
      (.mkSuccess "Resource updated successfully" updated StatusCodes.OK, rdb1)

/-- ResourceService.delete: same guard, then the repository delete. -/
def resourceDelete (rdb : List Resource) (id requestingUserId : Nat)
    (requestingUserRole : Role) : ServiceResponse Unit × List Resource :=
  match findResource rdb id with
  | none => (.mkFailure "Resource not found" StatusCodes.NOT_FOUND, rdb)
  | some existing =>
    if requestingUserRole ≠ Role.ADMIN ∧ existing.userId ≠ requestingUserId then
      (.mkFailure "You do not have permission to delete this resource" StatusCodes.FORBIDDEN, rdb)
    else
      (.mkSuccess "Resource deleted successfully" none StatusCodes.OK,
        resourceDeleteAsync rdb id)

/-! ### Store lemmas -/

/-- A user found by id carries that id. -/
lemma findUser_id_eq {uid : Nat} {v : UserWithSecrets} :
    ∀ {us : List UserWithSecrets}, findUser us uid = some v → v.id = uid := by
  intro us
  induction us with
  | nil => intro h; simp [findUser] at h
  | cons u rest ih =>
    intro h
    by_cases hid : u.id = uid
    · rw [findUser, if_pos hid] at h
      injection h with h
      subst h
      exact hid
    · rw [findUser, if_neg hid] at h
      exact ih h

/-- A user found by email is also findable by its own id. -/
lemma findUser_isSome_of_email {email : String} {u : UserWithSecrets} :
    ∀ {us : List UserWithSecrets},
      findUserByEmail us email = some u → (findUser us u.id).isSome := by
  intro us
  induction us with
  | nil => intro h; simp [findUserByEmail] at h
  | cons v rest ih =>
    intro h
    by_cases hem : v.email = email
    · rw [findUserByEmail, if_pos hem] at h
      injection h with h
      subst h
      simp [findUser]
    · rw [findUserByEmail, if_neg hem] at h
      by_cases hid : v.id = u.id
      · simp [findUser, hid]
      · rw [findUser, if_neg hid]
        exact ih h

/-- The refresh-hash update fails exactly when no row carries the id. -/
lemma setRefreshHash_eq_none_iff (uid : Nat) (h : Option BcryptHash) (now : Nat)
    (us : List UserWithSecrets) :
    setRefreshHashInList uid h now us = none ↔ findUser us uid = none := by
  induction us with
  | nil => simp [setRefreshHashInList, findUser]
  | cons u rest ih =>
    by_cases hid : u.id = uid
    · simp [setRefreshHashInList, findUser, hid]
    · simp [setRefreshHashInList, findUser, hid, Option.map_eq_none', ih]

/-- After a successful refresh-hash update, looking up the id finds the old row
with the new hash and timestamp. -/
lemma findUser_setRefreshHash {uid : Nat} {h : Option BcryptHash} {now : Nat} :
    ∀ {us us' : List UserWithSecrets}, setRefreshHashInList uid h now us = some us' →
      ∃ v, findUser us uid = some v ∧
        findUser us' uid = some { v with refreshTokenHash := h, updatedAt := now } := by
  intro us
  induction us with
  | nil => intro us' heq; simp [setRefreshHashInList] at heq
  | cons u rest ih =>
    intro us' heq
    by_cases hid : u.id = uid
    · rw [setRefreshHashInList, if_pos hid] at heq
      injection heq with heq
      subst heq
      refine ⟨u, ?_, ?_⟩
      · rw [findUser, if_pos hid]
      · simp [findUser, hid]
    · rw [setRefreshHashInList, if_neg hid] at heq
      rw [Option.map_eq_some'] at heq
      obtain ⟨rest', hrest, hus'⟩ := heq
      obtain ⟨v, hv1, hv2⟩ := ih hrest
      subst hus'
      refine ⟨v, ?_, ?_⟩
      · rw [findUser, if_neg hid]
        exact hv1
      · rw [findUser, if_neg hid]
        exact hv2

/-- A row with the id makes the refresh-hash update succeed. -/
lemma setRefreshHash_isSome {uid : Nat} {us : List UserWithSecrets}
    (hfind : (findUser us uid).isSome) (nh : Option BcryptHash) (now : Nat) :
    ∃ us', setRefreshHashInList uid nh now us = some us' := by
  rcases hset : setRefreshHashInList uid nh now us with _ | us'
  · rw [setRefreshHash_eq_none_iff] at hset
    rw [hset] at hfind
    simp at hfind
  · exact ⟨us', rfl⟩

/-- jwt.verify accepts a token signed with the same secret and returns its claims. -/
lemma jwtVerify_jwtSign_eq (p : TokenPayload) (s e : String) (j : Nat) :
    jwtVerify (jwtSign p s e j) s = some p := by
  simp [jwtVerify, jwtSign]

/-- jwt.verify rejects a token signed with a different secret. -/
lemma jwtVerify_jwtSign_ne {s s2 : String} (h : s ≠ s2) (p : TokenPayload)
    (e : String) (j : Nat) :
    jwtVerify (jwtSign p s e j) s2 = none := by
  simp [jwtVerify, jwtSign, h]

/-- bcrypt verification succeeds on the hash of the same value. -/
lemma verifyPassword_bcryptHash [BcryptInput α] (x : α) (s : Nat) :
    verifyPassword x (bcryptHash x s) = true := by
  simp [verifyPassword, bcryptCompare, bcryptHash]

/-- Two tokens carrying the same claims payload have identical bcrypt keys —
their differing token ids, expiries and signatures all lie past the 72-byte
window — so each verifies against the stored hash of the other. This is the
mechanism that defeats refresh-token rotation in the source. -/
lemma verifyPassword_jwt_same_payload {t t2 : Jwt} (h : t.payload = t2.payload) (s : Nat) :
    verifyPassword t (bcryptHash t2 s) = true := by
  simp [verifyPassword, bcryptCompare, bcryptHash, instBcryptInputJwt, BcryptInput.key, h]

/-! ### Concrete fixtures used by the witnesses -/

/-- A configuration with two distinct 36-character secrets. -/
def sampleEnv : Env :=
  { JWT_SECRET := "access-secret-0123456789012345678901",
    JWT_REFRESH_SECRET := "refresh-secret-012345678901234567890",
    JWT_ACCESS_EXPIRY := "15m", JWT_REFRESH_EXPIRY := "7d" }

/-- An empty store. -/
def emptyDb : Db := { users := [], nextId := 1, now := 0, nextSalt := 0, nextJti := 0 }

/-- The store after registering a@b.com (scenario A of the spec). -/
def sampleDb : Db := (registerAsync emptyDb "a@b.com" "Password123!" "Alice").2

/-- The row registration creates in sampleDb. -/
def sampleUser : UserWithSecrets :=
  { id := 1, email := "a@b.com", role := Role.USER, createdAt := 0, updatedAt := 0,
    passwordHash := bcryptHash "Password123!" 0, refreshTokenHash := none }

/-! ### Claim theorems -/

/-- C2: login fails with status 401 and the identical generic message both when
no user has the email and when the password fails verification against the
stored hash, and in either case the whole store state is returned unchanged, so
no refresh-session hash is written. -/
theorem c2_login_generic_failure (cfg : Env) (db : Db) (email password : String) :
    (findByEmailAsync db email = none →
      loginAsync cfg db email password =
        (ServiceResponse.mkFailure "Invalid email or password" StatusCodes.UNAUTHORIZED, db))
    ∧ (∀ u, findByEmailAsync db email = some u →
        verifyPassword password u.passwordHash = false →
        loginAsync cfg db email password =
          (ServiceResponse.mkFailure "Invalid email or password" StatusCodes.UNAUTHORIZED, db)) := by
  constructor
  · intro h
    simp [loginAsync, h]
  · intro u hu hpw
    simp [loginAsync, hu, hpw]

/-- Witness for C2 at a concrete store: unknown email and wrong password both
yield the generic 401 with the store untouched. -/
theorem c2_login_generic_failure_witness :
    loginAsync sampleEnv sampleDb "missing@b.com" "pw" =
      (ServiceResponse.mkFailure "Invalid email or password" StatusCodes.UNAUTHORIZED, sampleDb)
    ∧ loginAsync sampleEnv sampleDb "a@b.com" "wrong" =
      (ServiceResponse.mkFailure "Invalid email or password" StatusCodes.UNAUTHORIZED, sampleDb) :=
  ⟨(c2_login_generic_failure sampleEnv sampleDb "missing@b.com" "pw").1 rfl,
   (c2_login_generic_failure sampleEnv sampleDb "a@b.com" "wrong").2 sampleUser rfl rfl⟩

/-- C6: when the two signing secrets differ, the access token produced by
generateTokens never passes refresh-token verification, and the refresh token
never passes access-token verification (as performed by the socket middleware). -/
theorem c6_cross_secret (cfg : Env) (hne : cfg.JWT_SECRET ≠ cfg.JWT_REFRESH_SECRET)
    (db : Db) (uid : Nat) (email : String) (role : Role) :
    verifyRefreshToken cfg (generateTokens cfg db uid email role).1.1 = none
    ∧ socketVerifyAccessToken cfg (generateTokens cfg db uid email role).1.2 = none := by
  have hne2 : cfg.JWT_REFRESH_SECRET ≠ cfg.JWT_SECRET := Ne.symm hne
  constructor
  · simp [verifyRefreshToken, generateTokens, jwtVerify, jwtSign, hne]
  · simp [socketVerifyAccessToken, generateTokens, jwtVerify, jwtSign, hne2]

/-- Witness for C6 at the sample configuration (distinct secrets). -/
theorem c6_cross_secret_witness :
    verifyRefreshToken sampleEnv (generateTokens sampleEnv sampleDb 1 "a@b.com" Role.USER).1.1
      = none
    ∧ socketVerifyAccessToken sampleEnv
        (generateTokens sampleEnv sampleDb 1 "a@b.com" Role.USER).1.2 = none :=
  c6_cross_secret sampleEnv (by decide) sampleDb 1 "a@b.com" Role.USER

/-- C7: for a user present in the store, logout succeeds, leaves the stored
refresh hash null, and a second logout succeeds again and still observes and
leaves null. -/
theorem c7_logout_idempotent (db : Db) (userId : Nat)
    (h : (findByIdAsync db userId).isSome) :
    ∃ db1 db2,
      logoutAsync db userId =
        (ServiceResponse.mkSuccess "Logout successful" none StatusCodes.OK, db1)
      ∧ (∃ v1, findByIdAsync db1 userId = some v1 ∧ v1.refreshTokenHash = none)
      ∧ logoutAsync db1 userId =
        (ServiceResponse.mkSuccess "Logout successful" none StatusCodes.OK, db2)
      ∧ (∃ v2, findByIdAsync db2 userId = some v2 ∧ v2.refreshTokenHash = none) := by
  obtain ⟨us1, hus1⟩ := setRefreshHash_isSome h none db.now
  obtain ⟨v0, hv0, hv1⟩ := findUser_setRefreshHash hus1
  have hfind1 : (findUser us1 userId).isSome := by rw [hv1]; rfl
  obtain ⟨us2, hus2⟩ := setRefreshHash_isSome hfind1 none db.now
  obtain ⟨v1, hv1a, hv2⟩ := findUser_setRefreshHash hus2
  refine ⟨{ db with users := us1 }, { db with users := us2 }, ?_, ?_, ?_, ?_⟩
  · simp [logoutAsync, clearRefreshTokenHashAsync, hus1]
  · exact ⟨_, hv1, rfl⟩
  · simp [logoutAsync, clearRefreshTokenHashAsync, hus2]
  · exact ⟨_, hv2, rfl⟩

/-- Witness for C7 at the concrete registered store. -/
theorem c7_logout_idempotent_witness :
    ∃ db1 db2,
      logoutAsync sampleDb 1 =
        (ServiceResponse.mkSuccess "Logout successful" none StatusCodes.OK, db1)
      ∧ (∃ v1, findByIdAsync db1 1 = some v1 ∧ v1.refreshTokenHash = none)
      ∧ logoutAsync db1 1 =
        (ServiceResponse.mkSuccess "Logout successful" none StatusCodes.OK, db2)
      ∧ (∃ v2, findByIdAsync db2 1 = some v2 ∧ v2.refreshTokenHash = none) :=
  c7_logout_idempotent sampleDb 1 (by decide)

/-- A 32-character secret used for both JWT fields. -/
def equalSecret : String := "0123456789abcdef0123456789abcdef"

/-- Counterexample to C8: an environment in which the access secret and the
refresh secret are the same 32-character string passes the schema validation
(the parse succeeds instead of failing). -/
theorem c8_counterexample :
    parseEnvAuth (some equalSecret) (some equalSecret) none none =
      some { JWT_SECRET := equalSecret, JWT_REFRESH_SECRET := equalSecret,
             JWT_ACCESS_EXPIRY := "15m", JWT_REFRESH_EXPIRY := "7d" } := by
  decide

/-- C8 amended: the schema validates the two JWT secrets independently — each
must be present and at least 32 characters — and never compares them, so a
configuration with equal secrets is accepted. -/
theorem c8_amended_min_length (s t a b : Option String) :
    (parseEnvAuth s t a b).isSome ↔
      (∃ x, s = some x ∧ 32 ≤ x.length) ∧ (∃ y, t = some y ∧ 32 ≤ y.length) := by
  cases s with
  | none => simp [parseEnvAuth]
  | some x =>
    cases t with
    | none => simp [parseEnvAuth]
    | some y =>
      by_cases hx : 32 ≤ x.length
      · by_cases hy : 32 ≤ y.length
        · simp [parseEnvAuth, hx, hy]
        · simp [parseEnvAuth, hx, hy]
      · simp [parseEnvAuth, hx]

/-- C9: registerAsync never reads its name argument: for any two name values
the full result (response and resulting store) is identical; moreover on a free
email the stored row has the given email, role USER, a null session hash and a
hash verifying the password, and the response carries its sanitized projection. -/
theorem c9_register_name_independent (db : Db) (email password n1 n2 : String) :
    registerAsync db email password n1 = registerAsync db email password n2
    ∧ (findByEmailAsync db email = none →
        ∃ u db1,
          registerAsync db email password n1 =
            (ServiceResponse.mkSuccess "User registered successfully"
              (some (sanitizeUser u)) StatusCodes.CREATED, db1)
          ∧ u.email = email ∧ u.role = Role.USER ∧ u.refreshTokenHash = none
          ∧ verifyPassword password u.passwordHash = true
          ∧ u ∈ db1.users) := by
  constructor
  · rfl
  · intro h
    refine ⟨{ id := db.nextId, email := email, role := Role.USER, createdAt := db.now,
              updatedAt := db.now, passwordHash := bcryptHash password db.nextSalt,
              refreshTokenHash := none },
            { db with
              users := db.users ++
                [{ id := db.nextId, email := email, role := Role.USER, createdAt := db.now,
                   updatedAt := db.now, passwordHash := bcryptHash password db.nextSalt,
                   refreshTokenHash := none }],
              nextId := db.nextId + 1, nextSalt := db.nextSalt + 1 },
            ?_, rfl, rfl, rfl, ?_, ?_⟩
    · simp [registerAsync, h, hashPassword, createUserAsync]
    · simp [verifyPassword_bcryptHash]
    · simp [registerAsync, h, hashPassword, createUserAsync]

/-- Witness for C9 on the empty store. -/
theorem c9_register_name_independent_witness :
    registerAsync emptyDb "a@b.com" "Password123!" "Alice" =
      registerAsync emptyDb "a@b.com" "Password123!" "Bob"
    ∧ ∃ u db1,
        registerAsync emptyDb "a@b.com" "Password123!" "Alice" =
          (ServiceResponse.mkSuccess "User registered successfully"
            (some (sanitizeUser u)) StatusCodes.CREATED, db1)
        ∧ u.email = "a@b.com" ∧ u.role = Role.USER ∧ u.refreshTokenHash = none
        ∧ verifyPassword "Password123!" u.passwordHash = true
        ∧ u ∈ db1.users :=
  ⟨(c9_register_name_independent emptyDb "a@b.com" "Password123!" "Alice" "Bob").1,
   (c9_register_name_independent emptyDb "a@b.com" "Password123!" "Alice" "Bob").2 rfl⟩

/-- C10: when no row matches the id, the repository update underlying logout
throws, and logoutAsync surfaces this as a 500 Internal failure with the store
unchanged, not as a successful no-op. -/
theorem c10_logout_missing_user (db : Db) (userId : Nat)
    (h : findByIdAsync db userId = none) :
    logoutAsync db userId =
      (ServiceResponse.mkFailure "An error occurred while logging out."
        StatusCodes.INTERNAL_SERVER_ERROR, db) := by
  have hclear : clearRefreshTokenHashAsync db userId = none := by
    unfold clearRefreshTokenHashAsync
    rw [Option.map_eq_none', setRefreshHash_eq_none_iff]
    exact h
  simp [logoutAsync, hclear]

/-- Witness for C10: user id 99 is absent from the sample store. -/
theorem c10_logout_missing_user_witness :
    logoutAsync sampleDb 99 =
      (ServiceResponse.mkFailure "An error occurred while logging out."
        StatusCodes.INTERNAL_SERVER_ERROR, sampleDb) :=
  c10_logout_missing_user sampleDb 99 rfl

/-- C3: sanitizeUser forgets exactly the two secret fields (its output is
invariant under any change to them), and every user value a success result of
register, login or currentUser carries is sanitizeUser of the underlying store
record, so no outward user value contains a password hash or a session hash. -/
theorem c3_sanitized_outputs (u : UserWithSecrets) (ph : BcryptHash)
    (rh : Option BcryptHash) (cfg : Env) (db : Db)
    (email password nm : String) (uid : Nat) :
    sanitizeUser { u with passwordHash := ph, refreshTokenHash := rh } = sanitizeUser u
    ∧ (∀ r db1, registerAsync db email password nm = (r, db1) → r.success = true →
        ∃ w, w ∈ db1.users ∧ r.data = some (sanitizeUser w))
    ∧ (∀ r db1 d, loginAsync cfg db email password = (r, db1) → r.data = some d →
        ∃ w, findByEmailAsync db email = some w ∧ d.user = sanitizeUser w)
    ∧ (∀ r db1, getCurrentUserAsync db uid = (r, db1) → r.success = true →
        ∃ w, findByIdAsync db uid = some w ∧ r.data = some (sanitizeUser w)) := by
  refine ⟨rfl, ?_, ?_, ?_⟩
  · intro r db1 heq hsucc
    cases hfe : findByEmailAsync db email with
    | some w =>
      simp [registerAsync, hfe] at heq
      rw [← heq.1] at hsucc
      simp [ServiceResponse.mkFailure] at hsucc
    | none =>
      simp [registerAsync, hfe, hashPassword, createUserAsync] at heq
      refine ⟨{ id := db.nextId, email := email, role := Role.USER, createdAt := db.now,
                updatedAt := db.now, passwordHash := bcryptHash password db.nextSalt,
                refreshTokenHash := none }, ?_, ?_⟩
      · rw [← heq.2]
        simp
      · rw [← heq.1]
        simp [ServiceResponse.mkSuccess]
  · intro r db1 d heq hdata
    cases hfe : findByEmailAsync db email with
    | none =>
      simp [loginAsync, hfe] at heq
      rw [← heq.1] at hdata
      simp [ServiceResponse.mkFailure] at hdata
    | some w =>
      by_cases hpw : verifyPassword password w.passwordHash = true
      · simp only [loginAsync, hfe, hpw, if_true] at heq
        split at heq
        · injection heq with h1 h2
          rw [← h1] at hdata
          simp [ServiceResponse.mkFailure] at hdata
        · injection heq with h1 h2
          rw [← h1] at hdata
          simp only [ServiceResponse.mkSuccess, Option.some_inj] at hdata
          exact ⟨w, rfl, by rw [← hdata]⟩
      · rw [Bool.not_eq_true] at hpw
        simp [loginAsync, hfe, hpw] at heq
        rw [← heq.1] at hdata
        simp [ServiceResponse.mkFailure] at hdata
  · intro r db1 heq hsucc
    cases hfi : findByIdAsync db uid with
    | none =>
      simp [getCurrentUserAsync, hfi] at heq
      rw [← heq.1] at hsucc
      simp [ServiceResponse.mkFailure] at hsucc
    | some w =>
      simp [getCurrentUserAsync, hfi] at heq
      refine ⟨w, rfl, ?_⟩
      rw [← heq.1]
      simp [ServiceResponse.mkSuccess]

/-- Witness for C3: instantiation at the sample store, discharging the success
hypotheses of the register and currentUser components by evaluation. -/
theorem c3_sanitized_outputs_witness :
    sanitizeUser { sampleUser with
        passwordHash := bcryptHash "other" 7, refreshTokenHash := none } = sanitizeUser sampleUser
    ∧ (∃ w, w ∈ sampleDb.users
        ∧ (registerAsync emptyDb "a@b.com" "Password123!" "Alice").1.data
            = some (sanitizeUser w))
    ∧ (∃ w, findByIdAsync sampleDb 1 = some w
        ∧ (getCurrentUserAsync sampleDb 1).1.data = some (sanitizeUser w)) :=
  ⟨(c3_sanitized_outputs sampleUser (bcryptHash "other" 7) none sampleEnv emptyDb
      "a@b.com" "Password123!" "Alice" 1).1,
   (c3_sanitized_outputs sampleUser (bcryptHash "other" 7) none sampleEnv emptyDb
      "a@b.com" "Password123!" "Alice" 1).2.1
      (registerAsync emptyDb "a@b.com" "Password123!" "Alice").1
      (registerAsync emptyDb "a@b.com" "Password123!" "Alice").2 rfl rfl,
   (c3_sanitized_outputs sampleUser (bcryptHash "other" 7) none sampleEnv sampleDb
      "a@b.com" "Password123!" "Alice" 1).2.2.2
      (getCurrentUserAsync sampleDb 1).1 (getCurrentUserAsync sampleDb 1).2 rfl rfl⟩

/-- C4: with a resource present in the store, read, update and delete all apply
the same rule: the call succeeds exactly when the actor is ADMIN or owns the
resource, and any non-admin non-owner (MODERATOR included) receives 403. -/
theorem c4_ownership_rule (rdb : List Resource) (id aId : Nat) (role : Role)
    (r : Resource) (p : ResourcePatch) (hfind : findResource rdb id = some r) :
    (canAccess role aId r.userId = true ↔ (role = Role.ADMIN ∨ r.userId = aId))
    ∧ (resourceFindById rdb id aId role).success = canAccess role aId r.userId
    ∧ (resourceUpdate rdb id p aId role).1.success = canAccess role aId r.userId
    ∧ (resourceDelete rdb id aId role).1.success = canAccess role aId r.userId
    ∧ (canAccess role aId r.userId = false →
        (resourceFindById rdb id aId role).statusCode = StatusCodes.FORBIDDEN
        ∧ (resourceUpdate rdb id p aId role).1.statusCode = StatusCodes.FORBIDDEN
        ∧ (resourceDelete rdb id aId role).1.statusCode = StatusCodes.FORBIDDEN) := by
  by_cases h1 : role = Role.ADMIN <;> by_cases h2 : r.userId = aId <;>
    simp [resourceFindById, resourceUpdate, resourceDelete, canAccess, hfind, h1, h2,
      ServiceResponse.mkSuccess, ServiceResponse.mkFailure]

/-- A concrete resource owned by user 1. -/
def sampleResource : Resource :=
  { id := 10, title := "t", description := none, content := none,
    status := ResourceStatus.DRAFT, category := none, tags := [], metadata := none,
    createdAt := 0, updatedAt := 0, userId := 1 }

/-- An empty update payload. -/
def emptyPatch : ResourcePatch :=
  { title := none, description := none, content := none, status := none,
    category := none, tags := none, metadata := none }

/-- Witness for C4: a MODERATOR who does not own resource 10 is denied with 403
on read, update and delete, matching canAccess. -/
theorem c4_ownership_rule_witness :
    (canAccess Role.MODERATOR 2 sampleResource.userId = true ↔
      (Role.MODERATOR = Role.ADMIN ∨ sampleResource.userId = 2))
    ∧ (resourceFindById [sampleResource] 10 2 Role.MODERATOR).success
        = canAccess Role.MODERATOR 2 sampleResource.userId
    ∧ (resourceUpdate [sampleResource] 10 emptyPatch 2 Role.MODERATOR).1.success
        = canAccess Role.MODERATOR 2 sampleResource.userId
    ∧ (resourceDelete [sampleResource] 10 2 Role.MODERATOR).1.success
        = canAccess Role.MODERATOR 2 sampleResource.userId
    ∧ (canAccess Role.MODERATOR 2 sampleResource.userId = false →
        (resourceFindById [sampleResource] 10 2 Role.MODERATOR).statusCode
            = StatusCodes.FORBIDDEN
        ∧ (resourceUpdate [sampleResource] 10 emptyPatch 2 Role.MODERATOR).1.statusCode
            = StatusCodes.FORBIDDEN
        ∧ (resourceDelete [sampleResource] 10 2 Role.MODERATOR).1.statusCode
            = StatusCodes.FORBIDDEN) :=
  c4_ownership_rule [sampleResource] 10 2 Role.MODERATOR sampleResource emptyPatch rfl

/-- C5: with a correct password, login succeeds with the sanitized user, an
access token and a refresh token, and afterwards the stored session hash of the
user row is non-null and verifies against the returned refresh token (the
fresh hash overwrites whatever was stored before). -/
theorem c5_login_stores_hash (cfg : Env) (db : Db) (email password : String)
    (u : UserWithSecrets) (hu : findByEmailAsync db email = some u)
    (hpw : verifyPassword password u.passwordHash = true) :
    ∃ d db1,
      loginAsync cfg db email password =
        (ServiceResponse.mkSuccess "Login successful" (some d) StatusCodes.OK, db1)
      ∧ d.user = sanitizeUser u
      ∧ ∃ v, findByIdAsync db1 u.id = some v
          ∧ ∃ hsh, v.refreshTokenHash = some hsh
              ∧ verifyPassword d.refreshToken hsh = true := by
  have hfind : (findUser db.users u.id).isSome := findUser_isSome_of_email hu
  obtain ⟨us1, hus1⟩ := setRefreshHash_isSome hfind
      (some (bcryptHash (jwtSign { userId := u.id, email := u.email, role := u.role }
        cfg.JWT_REFRESH_SECRET cfg.JWT_REFRESH_EXPIRY (db.nextJti + 1)) db.nextSalt)) db.now
  obtain ⟨v0, hv0, hv1⟩ := findUser_setRefreshHash hus1
  refine ⟨{ user := sanitizeUser u,
            accessToken := jwtSign { userId := u.id, email := u.email, role := u.role }
              cfg.JWT_SECRET cfg.JWT_ACCESS_EXPIRY db.nextJti,
            refreshToken := jwtSign { userId := u.id, email := u.email, role := u.role }
              cfg.JWT_REFRESH_SECRET cfg.JWT_REFRESH_EXPIRY (db.nextJti + 1) },
          { db with users := us1, nextSalt := db.nextSalt + 1, nextJti := db.nextJti + 2 },
          ?_, rfl, ?_⟩
  · simp [loginAsync, hu, hpw, generateTokens, hashPassword,
      updateRefreshTokenHashAsync, hus1]
  · refine ⟨{ v0 with
        refreshTokenHash := some (bcryptHash
          (jwtSign { userId := u.id, email := u.email, role := u.role }
            cfg.JWT_REFRESH_SECRET cfg.JWT_REFRESH_EXPIRY (db.nextJti + 1)) db.nextSalt),
        updatedAt := db.now }, ?_,
      bcryptHash (jwtSign { userId := u.id, email := u.email, role := u.role }
        cfg.JWT_REFRESH_SECRET cfg.JWT_REFRESH_EXPIRY (db.nextJti + 1)) db.nextSalt,
      rfl, ?_⟩
    · simpa [findByIdAsync] using hv1
    · simp [verifyPassword_bcryptHash]

/-- Witness for C5 at the sample store with the correct password. -/
theorem c5_login_stores_hash_witness :
    ∃ d db1,
      loginAsync sampleEnv sampleDb "a@b.com" "Password123!" =
        (ServiceResponse.mkSuccess "Login successful" (some d) StatusCodes.OK, db1)
      ∧ d.user = sanitizeUser sampleUser
      ∧ ∃ v, findByIdAsync db1 sampleUser.id = some v
          ∧ ∃ hsh, v.refreshTokenHash = some hsh
              ∧ verifyPassword d.refreshToken hsh = true :=
  c5_login_stores_hash sampleEnv sampleDb "a@b.com" "Password123!" sampleUser rfl rfl

/-- Fallback value used to project the concrete login payload in the C1 run. -/
def dummyLoginData : LoginData :=
  { user := sanitizeUser sampleUser,
    accessToken := jwtSign { userId := 0, email := "", role := Role.USER } "" "" 0,
    refreshToken := jwtSign { userId := 0, email := "", role := Role.USER } "" "" 0 }

/-- The concrete run of the C1 failing input, step 1: login of the sample user. -/
def replayLogin : ServiceResponse LoginData × Db :=
  loginAsync sampleEnv sampleDb "a@b.com" "Password123!"

/-- The refresh token r0 returned by that login. -/
def replayR0 : Jwt := (replayLogin.1.data.getD dummyLoginData).refreshToken

/-- Step 2: refresh(r0) — succeeds and rotates the stored hash to the hash of
the new refresh token r1. -/
def replayFirstRefresh : ServiceResponse RefreshData × Db :=
  refreshTokenAsync sampleEnv replayLogin.2 replayR0

/-- Step 3: replay of the consumed r0 against the rotated store. -/
def replaySecondRefresh : ServiceResponse RefreshData × Db :=
  refreshTokenAsync sampleEnv replayFirstRefresh.2 replayR0

/-- C1 (code bug): rotation does not invalidate the consumed refresh token.
bcryptjs keys on only the first 72 bytes of its input, and the replayed r0
agrees with the newly stored r1 on that whole window (same fixed header, same
userId/email/role claim prefix; the differing token ids, timestamps and
signatures lie past byte 72), so the stored-hash check accepts r0 again:
after login and a successful refresh(r0), a second refresh(r0) also succeeds
with status 200 and rotates once more — not the 401 Unauthorized that the
rotation-invalidation claim and the doc comment on refreshTokenAsync (the old
refresh token is invalidated) require. -/
theorem c1_replay_accepted :
    replayLogin.1.success = true
    ∧ replayFirstRefresh.1.success = true
    ∧ replaySecondRefresh.1.success = true
    ∧ replaySecondRefresh.1.statusCode = StatusCodes.OK
    ∧ replaySecondRefresh.1.statusCode ≠ StatusCodes.UNAUTHORIZED := by
  decide

end StarterKit
